/- Verification development for the ShipLock license engine
   (shiplock_license.py): machine-bound offline licenses with an RSA-PSS
   signature plus a salted integrity-seal layer.

   Embedding conventions.  External library primitives (hashlib SHA-256 and
   SHA-512, RSA-PSS sign/verify from the cryptography package, base64,
   json serialization of the claim dict, datetime.fromisoformat /
   datetime.now, and the hardware fingerprint of the running machine) are
   abstract fields of a `World` record: the repository calls them but does
   not define them.  Everything the repository itself defines - the
   three-round integrity hash chain, the verify control flow with its
   exception handlers, create_license, sign_license's key-loading fallback,
   and the activation record - is transcribed concretely below.  Bytes and
   PEM texts are modelled as `String`; timestamps compare through an `Int`
   obtained from the abstract fromisoformat. -/

import Mathlib

/-- Feature map of a license claim: opaque to the verification core
    (Python: a dict).  Modelled as an association list. -/
def Features := List (String × String)
deriving DecidableEq, Repr, Inhabited

/-- The top-level JSON object of a license artifact file.  Each field is
    `Option` because the Python code indexes the parsed dict with `[]` and a
    missing key raises `KeyError` (caught by the generic handler). -/
structure RawArtifact where
  license : Option String
  signature : Option String
  public_key : Option String
  integrity : Option String
deriving DecidableEq, Repr

/-- The signed artifact built by `LicenseGenerator.sign_license`
    (all four fields are always present on this side). -/
structure SignedArtifact where
  license : String
  signature : String
  public_key : String
  integrity : String
deriving DecidableEq, Repr

/-- A signed artifact, viewed as the parsed JSON object the verifier sees. -/
def SignedArtifact.toRaw (a : SignedArtifact) : RawArtifact :=
  { license := some a.license, signature := some a.signature,
    public_key := some a.public_key, integrity := some a.integrity }

/-- The decoded license payload (the dict built by `create_license`).
    Fields are `Option` because the verifier reads some with `[]`
    (KeyError when absent) and some with `.get` and a default. -/
structure LicenseData where
  license_id : Option String
  product_id : Option String
  client : Option String
  issued_at : Option String
  expires_at : Option String
  machine_bound : Option Bool
  features : Option Features
  version : Option String
  machine_id : Option String
  system_info : Option String
deriving DecidableEq, Repr

/-- The details dict returned on the success path of `verify`. -/
structure AcceptedDetails where
  license_id : String
  product_id : String
  client : String
  issued_at : String
  expires_at : String
  machine_bound : Bool
  features : Features
deriving DecidableEq, Repr

/-- The activation record written by `LicenseActivation.activate_license`. -/
structure ActivationRecord where
  activated_at : String
  machine_id : String
  system_info : String
  license_id : String
deriving DecidableEq, Repr

/-- Rejection reasons, one constructor per `return False` site of
    `LicenseVerifier.verify`:
    notFound = the FileNotFoundError handler,
    invalidFormat = the json.JSONDecodeError handler,
    tamperedIntegrity = the seal mismatch return,
    badSignature = the inner signature try/except,
    expired = the expiry return (carries the reported expires_at),
    machineMismatch = the binding return (carries the truncated prefixes),
    verificationError = the generic `except Exception` handler (carries a
    tag naming the raising operation or missing key). -/
inductive Reason where
  | notFound
  | invalidFormat
  | tamperedIntegrity
  | badSignature
  | expired (expired_at : String)
  | machineMismatch (expected actual : String)
  | verificationError (tag : String)
deriving DecidableEq, Repr

/-- The (is_valid, details) pair returned by `verify`. -/
inductive VerifyResult where
  | accepted (details : AcceptedDetails)
  | rejected (reason : Reason)
deriving DecidableEq, Repr

/-- Outcome of reading and json-parsing the license file: the file may be
    missing (FileNotFoundError), unparseable (JSONDecodeError), or parsed. -/
inductive FileRead where
  | missing
  | badJson
  | parsed (a : RawArtifact)
deriving DecidableEq, Repr

/-- State of the two key files on disk, as `load_keys` sees them:
    both readable and decryptable, absent (FileNotFoundError), or present
    but undecodable (load_pem raises, and nothing catches it). -/
inductive DiskKeys where
  | present (priv pub : String)
  | missing
  | corrupt
deriving DecidableEq, Repr

/-- The abstract environment: every external primitive the engine calls.
    Both sides of the system draw their primitives from the same world. -/
structure World where
  sha256 : String → String
  sha512 : String → String
  b64encode : String → String
  b64decode : String → Option String
  pemOfPub : String → String
  loadPubKey : String → Option String
  pssSign : String → String → String
  pssVerify : String → String → String → Bool
  encodeClaim : LicenseData → String
  decodeClaim : String → Option LicenseData
  encodeRecord : ActivationRecord → String
  fromiso : String → Option Int
  now : Int
  nowIso : String
  currentMachineId : String
  systemInfo : String

namespace LicenseGenerator

/-- LicenseGenerator._calculate_integrity: three chained hash rounds over
    the colon-joined transport encodings, each round salted with the fixed
    application salt. -/
def calculate_integrity (sha256 sha512 : String → String)
    (license_b64 signature_b64 : String) : String :=
  let combined := license_b64 ++ ":" ++ signature_b64
  let salt := "shiplock_integrity_salt_v1"
  let hash1 := sha256 (combined ++ salt)
  let hash2 := sha512 (hash1 ++ salt)
  let hash3 := sha256 (hash2 ++ salt)
  hash3

/-- Python `expires or 'never'`: None and the empty string are falsy. -/
def expiresEff : Option String → String
  | none => "never"
  | some s => if s = "" then "never" else s

/-- LicenseGenerator.create_license.  license_id (uuid4), issued_at
    (datetime.now), the machine fingerprint and the system-info snapshot
    are environment-produced values passed in explicitly. -/
def create_license (license_id product_id client issued_at : String)
    (expires : Option String) (machine_bound : Bool) (features : Option Features)
    (fingerprint system_info : String) : LicenseData :=
  { license_id := some license_id
    product_id := some product_id
    client := some client
    issued_at := some issued_at
    expires_at := some (expiresEff expires)
    machine_bound := some machine_bound
    features := some (features.getD [])
    version := some "1.0"
    machine_id := if machine_bound then some fingerprint else none
    system_info := if machine_bound then some system_info else none }

/-- The artifact built by sign_license once a key pair is in hand:
    canonical claim bytes, PSS signature, base64 transport encodings,
    embedded public key PEM, and the integrity seal. -/
def signedArtifactOf (w : World) (priv pub : String) (ld : LicenseData) :
    SignedArtifact :=
  let license_bytes := w.encodeClaim ld
  let signature := w.pssSign priv license_bytes
  let license_b64 := w.b64encode license_bytes
  let signature_b64 := w.b64encode signature
  { license := license_b64
    signature := signature_b64
    public_key := w.pemOfPub pub
    integrity := calculate_integrity w.sha256 w.sha512 license_b64 signature_b64 }

/-- LicenseGenerator.load_keys: read and decrypt the key files; on
    FileNotFoundError fall back to generate_keys (the fresh pair); a
    present but undecodable key file raises out of the method. -/
def load_keys (disk : DiskKeys) (freshPriv freshPub : String) :
    Except String (String × String) :=
  match disk with
  | DiskKeys.present p q => Except.ok (p, q)
  | DiskKeys.missing => Except.ok (freshPriv, freshPub)
  | DiskKeys.corrupt => Except.error "load_pem_private_key"

/-- LicenseGenerator.sign_license: if no private key is loaded, first run
    load_keys (which may generate a fresh pair); then sign.  A loaded
    private key with no public key would hit AttributeError at
    public_bytes, modelled as an error. -/
def sign_license (w : World) (private_key public_key : Option String)
    (disk : DiskKeys) (freshPriv freshPub : String) (ld : LicenseData) :
    Except String SignedArtifact :=
  match private_key with
  | some priv =>
    match public_key with
    | some pub => Except.ok (signedArtifactOf w priv pub ld)
    | none => Except.error "AttributeError"
  | none =>
    match load_keys disk freshPriv freshPub with
    | Except.error e => Except.error e
    | Except.ok (priv, pub) => Except.ok (signedArtifactOf w priv pub ld)

end LicenseGenerator

namespace LicenseVerifier

/-- LicenseVerifier._calculate_integrity: transcribed separately from its
    own source lines (it textually repeats the generator's computation). -/
def calculate_integrity (sha256 sha512 : String → String)
    (license_b64 signature_b64 : String) : String :=
  let combined := license_b64 ++ ":" ++ signature_b64
  let salt := "shiplock_integrity_salt_v1"
  let hash1 := sha256 (combined ++ salt)
  let hash2 := sha512 (hash1 ++ salt)
  let hash3 := sha256 (hash2 ++ salt)
  hash3

/-- The success path of verify: builds the details dict.  Every field but
    features is read with `[]`, so a missing key raises KeyError into the
    generic handler; features uses `.get` with default {}. -/
def successStage (ld : LicenseData) : VerifyResult :=
  match ld.license_id with
  | none => VerifyResult.rejected (Reason.verificationError "license_id")
  | some lid =>
  match ld.product_id with
  | none => VerifyResult.rejected (Reason.verificationError "product_id")
  | some pid =>
  match ld.client with
  | none => VerifyResult.rejected (Reason.verificationError "client")
  | some cl =>
  match ld.issued_at with
  | none => VerifyResult.rejected (Reason.verificationError "issued_at")
  | some ia =>
  match ld.expires_at with
  | none => VerifyResult.rejected (Reason.verificationError "expires_at")
  | some ea =>
  match ld.machine_bound with
  | none => VerifyResult.rejected (Reason.verificationError "machine_bound")
  | some mb =>
    VerifyResult.accepted
      { license_id := lid, product_id := pid, client := cl, issued_at := ia,
        expires_at := ea, machine_bound := mb, features := ld.features.getD [] }

/-- The machine-binding check of verify: runs only when the decoded claim
    has machine_bound true (read with `.get`, default False); compares the
    current fingerprint with the embedded machine_id (`.get`, default '')
    and reports only 16-character truncations of either digest. -/
def machineStage (currentMachineId : String) (ld : LicenseData) : VerifyResult :=
  if ld.machine_bound.getD false then
    let license_machine_id := ld.machine_id.getD ""
    if currentMachineId ≠ license_machine_id then
      VerifyResult.rejected
        (Reason.machineMismatch (license_machine_id.take 16 ++ "...")
          (currentMachineId.take 16 ++ "..."))
    else successStage ld
  else successStage ld

/-- The expiry check of verify: expires_at is read with `[]` (KeyError if
    absent); when it is not the sentinel "never" it is parsed with
    fromisoformat (ValueError lands in the generic handler) and compared
    strictly against the current time. -/
def expiryStage (w : World) (ld : LicenseData) : VerifyResult :=
  match ld.expires_at with
  | none => VerifyResult.rejected (Reason.verificationError "expires_at")
  | some ea =>
    if ea ≠ "never" then
      match w.fromiso ea with
      | none => VerifyResult.rejected (Reason.verificationError "fromisoformat")
      | some expiry_date =>
        if w.now > expiry_date then
          VerifyResult.rejected (Reason.expired ea)
        else machineStage w.currentMachineId ld
    else machineStage w.currentMachineId ld

/-- LicenseVerifier.verify: the full pipeline in the source's order -
    read/parse the file, extract the four fields, recompute and compare the
    integrity seal, load the embedded public key, base64-decode license and
    signature, verify the PSS signature, json-decode the claim, then the
    expiry and machine stages.  Each exception site maps to the handler
    that catches it in the source. -/
def verify (w : World) (input : FileRead) : VerifyResult :=
  match input with
  | FileRead.missing => VerifyResult.rejected Reason.notFound
  | FileRead.badJson => VerifyResult.rejected Reason.invalidFormat
  | FileRead.parsed a =>
    match a.license with
    | none => VerifyResult.rejected (Reason.verificationError "license")
    | some license_b64 =>
    match a.signature with
    | none => VerifyResult.rejected (Reason.verificationError "signature")
    | some signature_b64 =>
    match a.public_key with
    | none => VerifyResult.rejected (Reason.verificationError "public_key")
    | some public_key_pem =>
    match a.integrity with
    | none => VerifyResult.rejected (Reason.verificationError "integrity")
    | some integrity =>
      let expected_integrity :=
        calculate_integrity w.sha256 w.sha512 license_b64 signature_b64
      if integrity ≠ expected_integrity then
        VerifyResult.rejected Reason.tamperedIntegrity
      else
        match w.loadPubKey public_key_pem with
        | none => VerifyResult.rejected (Reason.verificationError "load_pem_public_key")
        | some key =>
        match w.b64decode license_b64 with
        | none => VerifyResult.rejected (Reason.verificationError "b64decode")
        | some license_bytes =>
        match w.b64decode signature_b64 with
        | none => VerifyResult.rejected (Reason.verificationError "b64decode")
        | some signature =>
          if w.pssVerify key signature license_bytes then
            match w.decodeClaim license_bytes with
            | none => VerifyResult.rejected (Reason.verificationError "json_loads")
            | some license_data => expiryStage w license_data
          else VerifyResult.rejected Reason.badSignature

end LicenseVerifier

namespace LicenseActivation

/-- LicenseActivation.activate_license: verify the file; on rejection
    return False leaving the activation file untouched; on acceptance
    write (unconditionally overwriting) a fresh activation record and
    return True.  The activation file is modelled by its optional text
    content. -/
def activate_license (w : World) (input : FileRead) (activation_file : Option String) :
    Bool × Option String :=
  match LicenseVerifier.verify w input with
  | VerifyResult.rejected _ => (false, activation_file)
  | VerifyResult.accepted details =>
    (true, some (w.encodeRecord
      { activated_at := w.nowIso, machine_id := w.currentMachineId,
        system_info := w.systemInfo, license_id := details.license_id }))

/-- LicenseActivation.is_activated: a bare existence test on the
    activation file; the content is never opened. -/
def is_activated (activation_file : Option String) : Bool :=
  activation_file.isSome

end LicenseActivation

/-- Modelled from the spec (section 4.3), for the refinement claim about
    the seal: concatenate the two transport-encoded strings with a fixed
    separator, append the fixed salt, hash; append the salt to that hex
    digest and hash with the second function; append the salt again and
    hash with the first function. -/
def sealSpec (hashA hashB : String → String) (x y : String) : String :=
  let sep := ":"
  let salt := "shiplock_integrity_salt_v1"
  let round1 := hashA (x ++ sep ++ y ++ salt)
  let round2 := hashB (round1 ++ salt)
  hashA (round2 ++ salt)

/- Concrete test environment used by the evaluation witnesses.  The
   abstract primitives are instantiated with small executable stand-ins
   that satisfy the library contracts at the test inputs. -/

/-- A non-machine-bound test claim, expiring never. -/
def ldFree : LicenseData :=
  LicenseGenerator.create_license "lid1" "prod" "acme" "2024-01-01" none false
    none "FPAAAAAAAAAAAAAAAAAAAA" "sys"

/-- A machine-bound test claim, expiring never. -/
def ldBound : LicenseData :=
  LicenseGenerator.create_license "lid2" "prod" "acme" "2024-01-01" none true
    none "FPAAAAAAAAAAAAAAAAAAAA" "sys"

/-- A test claim with a timestamp already in the past of the test clock. -/
def ldPast : LicenseData :=
  LicenseGenerator.create_license "lid3" "prod" "acme" "2024-01-01"
    (some "2020-01-01") false none "FPAAAAAAAAAAAAAAAAAAAA" "sys"

/-- The concrete test environment. -/
def wTest : World :=
  { sha256 := fun s => "s2" ++ s
    sha512 := fun s => "s5" ++ s
    b64encode := fun s => s
    b64decode := fun s => some s
    pemOfPub := fun k => k
    loadPubKey := fun s => some s
    pssSign := fun k m => "sig" ++ k ++ m
    pssVerify := fun k sg m => k == "PK" && sg == "sig" ++ "SK" ++ m
    encodeClaim := fun ld => "E" ++ ld.license_id.getD ""
    decodeClaim := fun s =>
      if s = "Elid1" then some ldFree
      else if s = "Elid2" then some ldBound
      else if s = "Elid3" then some ldPast
      else none
    encodeRecord := fun r => "R" ++ r.license_id
    fromiso := fun s =>
      if s = "2020-01-01" then some 5
      else if s = "2030-01-01" then some 100
      else none
    now := 10
    nowIso := "2024-06-01"
    currentMachineId := "FPAAAAAAAAAAAAAAAAAAAA"
    systemInfo := "sys" }

/- Helper lemmas shared by the claim proofs. -/

/-- The generator's and the verifier's seal computations are transcribed
    from two distinct source locations but unfold to the same term. -/
lemma gen_ver_integrity_eq (h1 h2 : String → String) (x y : String) :
    LicenseGenerator.calculate_integrity h1 h2 x y
      = LicenseVerifier.calculate_integrity h1 h2 x y := rfl

/-- Conditions under which verify runs all the way to the expiry stage:
    the four fields are present, the seal matches, the public key loads,
    both base64 decodes succeed, the signature verifies, and the claim
    json-decodes. -/
def reachesExpiry (w : World) (a : RawArtifact) (ld : LicenseData) : Prop :=
  ∃ l s pk key lb sb,
    a.license = some l ∧ a.signature = some s ∧ a.public_key = some pk ∧
    a.integrity = some (LicenseVerifier.calculate_integrity w.sha256 w.sha512 l s) ∧
    w.loadPubKey pk = some key ∧ w.b64decode l = some lb ∧
    w.b64decode s = some sb ∧ w.pssVerify key sb lb = true ∧
    w.decodeClaim lb = some ld

lemma verify_of_reaches (w : World) (a : RawArtifact) (ld : LicenseData)
    (h : reachesExpiry w a ld) :
    LicenseVerifier.verify w (FileRead.parsed a) = LicenseVerifier.expiryStage w ld := by
  obtain ⟨l, s, pk, key, lb, sb, hl, hs, hp, hi, hk, hbl, hbs, hv, hd⟩ := h
  simp [LicenseVerifier.verify, hl, hs, hp, hi, hk, hbl, hbs, hv, hd]

lemma successStage_ne_expired (ld : LicenseData) (x : String) :
    LicenseVerifier.successStage ld ≠ VerifyResult.rejected (Reason.expired x) := by
  unfold LicenseVerifier.successStage
  repeat' split
  all_goals simp

lemma machineStage_ne_expired (cm : String) (ld : LicenseData) (x : String) :
    LicenseVerifier.machineStage cm ld ≠ VerifyResult.rejected (Reason.expired x) := by
  simp only [LicenseVerifier.machineStage]
  split
  · split
    · simp
    · exact successStage_ne_expired ld x
  · exact successStage_ne_expired ld x

/-- A 16-character truncation followed by an ellipsis is never the
    original string once that string is longer than 19 characters
    (a full fingerprint digest has 64). -/
lemma truncation_ne_full (x : String) (h : 19 < x.length) :
    x.take 16 ++ "..." ≠ x := by
  intro he
  have hl := congrArg String.length he
  rw [String.length_append, String.take_eq] at hl
  have h2 : (String.mk (x.1.take 16)).length = (x.1.take 16).length := rfl
  have h3 : (x.1.take 16).length = min 16 x.1.length := by simp
  have h4 : ("...").length = 3 := rfl
  have h5 : x.length = x.1.length := rfl
  rw [h2, h3, h4, h5] at hl
  rw [h5] at h
  omega

/- Claim theorems. -/

/-- C3: the integrity seal of inputs x and y equals the fixed three-round
    alternating hash chain of the specification (first hash over input,
    separator, input, salt; second hash over that digest and the salt;
    first hash again over that result and the salt), and the issuing
    side's and the verifying side's seal computations are the same pure
    deterministic function of their inputs. -/
theorem seal_chain_refinement (h1 h2 : String → String) (x y : String) :
    LicenseGenerator.calculate_integrity h1 h2 x y
      = LicenseVerifier.calculate_integrity h1 h2 x y ∧
    LicenseGenerator.calculate_integrity h1 h2 x y = sealSpec h1 h2 x y :=
  ⟨rfl, rfl⟩

/-- C9: create_license treats an omitted expires argument and an empty
    (falsy) expires string identically, embedding the sentinel "never";
    only a non-empty expires string is embedded as the expiry timestamp. -/
theorem create_license_falsy_expires (lid pid cl ia : String) (mb : Bool)
    (fs : Option Features) (fp si : String) :
    LicenseGenerator.create_license lid pid cl ia (some "") mb fs fp si
      = LicenseGenerator.create_license lid pid cl ia none mb fs fp si ∧
    (LicenseGenerator.create_license lid pid cl ia none mb fs fp si).expires_at
      = some "never" ∧
    ∀ e : String, e ≠ "" →
      (LicenseGenerator.create_license lid pid cl ia (some e) mb fs fp si).expires_at
        = some e := by
  refine ⟨?_, rfl, ?_⟩
  · simp [LicenseGenerator.create_license, LicenseGenerator.expiresEff]
  · intro e he
    simp [LicenseGenerator.create_license, LicenseGenerator.expiresEff, he]

/-- C9 witness: a concrete non-empty expiry string is embedded as given. -/
theorem create_license_falsy_expires_witness :
    (LicenseGenerator.create_license "lid1" "prod" "acme" "2024-01-01"
        (some "2030-01-01") false none "FP" "sys").expires_at
      = some "2030-01-01" :=
  (create_license_falsy_expires "lid1" "prod" "acme" "2024-01-01" false none
    "FP" "sys").2.2 "2030-01-01" (by decide)

/-- C4: for an artifact whose four fields are present but whose integrity
    field differs from the recomputed seal, verify rejects with the
    tampered-integrity reason; moreover the result is the same in any
    environment agreeing only on the two hash functions, so no claim
    content is decoded and no expiry, clock, machine or signature
    primitive is consulted. -/
theorem seal_mismatch_rejects_early (w : World) (a : RawArtifact)
    (l s pk i : String)
    (hl : a.license = some l) (hs : a.signature = some s)
    (hp : a.public_key = some pk) (hi : a.integrity = some i)
    (hbad : i ≠ LicenseVerifier.calculate_integrity w.sha256 w.sha512 l s) :
    LicenseVerifier.verify w (FileRead.parsed a)
      = VerifyResult.rejected Reason.tamperedIntegrity ∧
    ∀ w' : World, w'.sha256 = w.sha256 → w'.sha512 = w.sha512 →
      LicenseVerifier.verify w' (FileRead.parsed a)
        = LicenseVerifier.verify w (FileRead.parsed a) := by
  have h1 : LicenseVerifier.verify w (FileRead.parsed a)
      = VerifyResult.rejected Reason.tamperedIntegrity := by
    simp [LicenseVerifier.verify, hl, hs, hp, hi, hbad]
  refine ⟨h1, ?_⟩
  intro w' h2 h5
  rw [h1]
  rw [← h2, ← h5] at hbad
  simp [LicenseVerifier.verify, hl, hs, hp, hi, hbad]

/-- C4 witness: a concrete artifact with a wrong integrity field is
    rejected as tampered in the test environment. -/
theorem seal_mismatch_rejects_early_witness :
    LicenseVerifier.verify wTest (FileRead.parsed
        { license := some "L", signature := some "S",
          public_key := some "PK", integrity := some "bad" })
      = VerifyResult.rejected Reason.tamperedIntegrity :=
  (seal_mismatch_rejects_early wTest
    { license := some "L", signature := some "S",
      public_key := some "PK", integrity := some "bad" }
    "L" "S" "PK" "bad" rfl rfl rfl rfl (by decide)).1

/-- C2: starting from a well-sealed artifact over claim encoding l and
    signature encoding s, (1) any change to the integrity field is
    rejected as tampered; (2) any change to the transport-encoded claim
    whose recomputed seal differs (as any single-byte change does for a
    collision-free hash chain) is rejected as tampered; (3) likewise for
    any change to the transport-encoded signature; (4) independently of
    the seal layer, an artifact whose seal matches but whose signature
    check fails is rejected as a bad signature - so a tampered artifact is
    never accepted. -/
theorem tamper_single_change_rejected (w : World) (l s pk : String) :
    (∀ i', i' ≠ LicenseVerifier.calculate_integrity w.sha256 w.sha512 l s →
      LicenseVerifier.verify w (FileRead.parsed
          { license := some l, signature := some s, public_key := some pk,
            integrity := some i' })
        = VerifyResult.rejected Reason.tamperedIntegrity) ∧
    (∀ l', LicenseVerifier.calculate_integrity w.sha256 w.sha512 l' s
        ≠ LicenseVerifier.calculate_integrity w.sha256 w.sha512 l s →
      LicenseVerifier.verify w (FileRead.parsed
          { license := some l', signature := some s, public_key := some pk,
            integrity := some (LicenseVerifier.calculate_integrity w.sha256 w.sha512 l s) })
        = VerifyResult.rejected Reason.tamperedIntegrity) ∧
    (∀ s', LicenseVerifier.calculate_integrity w.sha256 w.sha512 l s'
        ≠ LicenseVerifier.calculate_integrity w.sha256 w.sha512 l s →
      LicenseVerifier.verify w (FileRead.parsed
          { license := some l, signature := some s', public_key := some pk,
            integrity := some (LicenseVerifier.calculate_integrity w.sha256 w.sha512 l s) })
        = VerifyResult.rejected Reason.tamperedIntegrity) ∧
    (∀ l' key lb sb, w.loadPubKey pk = some key → w.b64decode l' = some lb →
      w.b64decode s = some sb → w.pssVerify key sb lb = false →
      LicenseVerifier.verify w (FileRead.parsed
          { license := some l', signature := some s, public_key := some pk,
            integrity := some (LicenseVerifier.calculate_integrity w.sha256 w.sha512 l' s) })
        = VerifyResult.rejected Reason.badSignature) := by
  refine ⟨?_, ?_, ?_, ?_⟩
  · intro i' hi
    simp [LicenseVerifier.verify, hi]
  · intro l' hcoll
    simp [LicenseVerifier.verify, Ne.symm hcoll]
  · intro s' hcoll
    simp [LicenseVerifier.verify, Ne.symm hcoll]
  · intro l' key lb sb hk hbl hbs hv
    simp [LicenseVerifier.verify, hk, hbl, hbs, hv]

/-- C2 witness: in the test environment, a changed integrity field, a
    changed claim encoding, and a failed signature over a sealed artifact
    are each rejected with the stated reasons. -/
theorem tamper_single_change_rejected_witness :
    LicenseVerifier.verify wTest (FileRead.parsed
        { license := some "L", signature := some "S", public_key := some "PK",
          integrity := some "x" })
      = VerifyResult.rejected Reason.tamperedIntegrity ∧
    LicenseVerifier.verify wTest (FileRead.parsed
        { license := some "L2", signature := some "S", public_key := some "PK",
          integrity := some (LicenseVerifier.calculate_integrity wTest.sha256 wTest.sha512 "L" "S") })
      = VerifyResult.rejected Reason.tamperedIntegrity ∧
    LicenseVerifier.verify wTest (FileRead.parsed
        { license := some "L2", signature := some "S", public_key := some "PK",
          integrity := some (LicenseVerifier.calculate_integrity wTest.sha256 wTest.sha512 "L2" "S") })
      = VerifyResult.rejected Reason.badSignature :=
  ⟨(tamper_single_change_rejected wTest "L" "S" "PK").1 "x" (by decide),
   (tamper_single_change_rejected wTest "L" "S" "PK").2.1 "L2" (by decide),
   (tamper_single_change_rejected wTest "L" "S" "PK").2.2.2 "L2" "PK" "L2" "S"
     rfl rfl rfl (by decide)⟩

/-- C8 counterexample: an artifact missing its integrity field is rejected
    through the generic exception handler (the KeyError lands in `except
    Exception`), not with the malformed-artifact reason that an
    unparseable file produces - so a missing required field does not get
    the MalformedArtifact kind. -/
theorem missing_field_not_malformed_counterexample :
    LicenseVerifier.verify wTest (FileRead.parsed
        { license := some "L", signature := some "S", public_key := some "PK",
          integrity := none })
      = VerifyResult.rejected (Reason.verificationError "integrity") ∧
    VerifyResult.rejected (Reason.verificationError "integrity")
      ≠ VerifyResult.rejected Reason.invalidFormat := by
  constructor
  · rfl
  · decide

/-- C8 amended: a missing license file is rejected as not-found; an
    unparseable file is rejected as invalid-format (MalformedArtifact);
    an artifact missing any of the four required fields is rejected
    through the generic exception handler, naming the first missing field
    in source order - in every case a typed rejection is returned and the
    artifact is never accepted. -/
theorem parse_failures_typed (w : World) (a : RawArtifact) :
    LicenseVerifier.verify w FileRead.missing
      = VerifyResult.rejected Reason.notFound ∧
    LicenseVerifier.verify w FileRead.badJson
      = VerifyResult.rejected Reason.invalidFormat ∧
    (a.license = none →
      LicenseVerifier.verify w (FileRead.parsed a)
        = VerifyResult.rejected (Reason.verificationError "license")) ∧
    (∀ l, a.license = some l → a.signature = none →
      LicenseVerifier.verify w (FileRead.parsed a)
        = VerifyResult.rejected (Reason.verificationError "signature")) ∧
    (∀ l s, a.license = some l → a.signature = some s → a.public_key = none →
      LicenseVerifier.verify w (FileRead.parsed a)
        = VerifyResult.rejected (Reason.verificationError "public_key")) ∧
    (∀ l s pk, a.license = some l → a.signature = some s →
      a.public_key = some pk → a.integrity = none →
      LicenseVerifier.verify w (FileRead.parsed a)
        = VerifyResult.rejected (Reason.verificationError "integrity")) := by
  refine ⟨rfl, rfl, ?_, ?_, ?_, ?_⟩
  · intro h
    simp [LicenseVerifier.verify, h]
  · intro l hl hs
    simp [LicenseVerifier.verify, hl, hs]
  · intro l s hl hs hp
    simp [LicenseVerifier.verify, hl, hs, hp]
  · intro l s pk hl hs hp hi
    simp [LicenseVerifier.verify, hl, hs, hp, hi]

/-- C8 witness: an artifact with no fields at all is rejected through the
    generic handler at the first missing field. -/
theorem parse_failures_typed_witness :
    LicenseVerifier.verify wTest (FileRead.parsed
        { license := none, signature := none, public_key := none, integrity := none })
      = VerifyResult.rejected (Reason.verificationError "license") :=
  (parse_failures_typed wTest
    { license := none, signature := none, public_key := none, integrity := none }).2.2.1 rfl

/-- C7 counterexample: with no key pair loaded and no key files on disk,
    sign_license does not fail - it generates a fresh pair and returns a
    signed artifact. -/
theorem sign_no_keys_counterexample :
    LicenseGenerator.sign_license wTest none none DiskKeys.missing "SK" "PK" ldFree
      = Except.ok (LicenseGenerator.signedArtifactOf wTest "SK" "PK" ldFree) := rfl

/-- C7 amended: when no private key is loaded at call time, sign_license
    first runs load_keys: it signs with the on-disk pair when the key
    files load, generates and signs with a fresh pair when they are
    absent, and fails only when the on-disk private key is present but
    undecodable (the load_pem error propagates uncaught). -/
theorem sign_license_key_fallback (w : World) (freshPriv freshPub : String)
    (ld : LicenseData) :
    (∀ p q, LicenseGenerator.sign_license w none none (DiskKeys.present p q)
        freshPriv freshPub ld
      = Except.ok (LicenseGenerator.signedArtifactOf w p q ld)) ∧
    LicenseGenerator.sign_license w none none DiskKeys.missing freshPriv freshPub ld
      = Except.ok (LicenseGenerator.signedArtifactOf w freshPriv freshPub ld) ∧
    (∃ e, LicenseGenerator.sign_license w none none DiskKeys.corrupt
        freshPriv freshPub ld = Except.error e) :=
  ⟨fun _ _ => rfl, rfl, ⟨"load_pem_private_key", rfl⟩⟩

lemma expiryStage_of_ok (w : World) (ld : LicenseData) (ea : String)
    (hea : ld.expires_at = some ea)
    (hok : ea = "never" ∨ ∃ t, w.fromiso ea = some t ∧ ¬ w.now > t) :
    LicenseVerifier.expiryStage w ld
      = LicenseVerifier.machineStage w.currentMachineId ld := by
  unfold LicenseVerifier.expiryStage
  rw [hea]
  rcases hok with h | ⟨t, hfi, hngt⟩
  · simp [h]
  · by_cases hnev : ea = "never"
    · simp [hnev]
    · simp [hnev, hfi, hngt]

/-- C5: once verification reaches the expiry stage, the result is an
    expiry rejection reporting the expiry date exactly when expires_at is
    not the sentinel "never" and the current time is strictly later than
    the parsed expiry timestamp; in particular a claim with expires_at
    "never" is never rejected for expiry. -/
theorem expiry_check_iff (w : World) (a : RawArtifact) (ld : LicenseData)
    (ea : String) (hre : reachesExpiry w a ld) (hea : ld.expires_at = some ea) :
    LicenseVerifier.verify w (FileRead.parsed a)
        = VerifyResult.rejected (Reason.expired ea)
      ↔ ea ≠ "never" ∧ ∃ t, w.fromiso ea = some t ∧ w.now > t := by
  rw [verify_of_reaches w a ld hre]
  unfold LicenseVerifier.expiryStage
  rw [hea]
  by_cases hnev : ea = "never"
  · simp [hnev, machineStage_ne_expired]
  · cases hfi : w.fromiso ea with
    | none => simp [hnev, hfi]
    | some t =>
      by_cases hgt : w.now > t
      · simp [hnev, hfi, hgt]
      · simp [hnev, hfi, hgt, machineStage_ne_expired]

/-- C5 witness: a concretely expired claim (clock 10, expiry 5) is
    rejected as expired, reporting its expiry date. -/
theorem expiry_check_iff_witness :
    LicenseVerifier.verify wTest (FileRead.parsed
        (LicenseGenerator.signedArtifactOf wTest "SK" "PK" ldPast).toRaw)
      = VerifyResult.rejected (Reason.expired "2020-01-01") :=
  (expiry_check_iff wTest
      (LicenseGenerator.signedArtifactOf wTest "SK" "PK" ldPast).toRaw ldPast
      "2020-01-01"
      ⟨wTest.b64encode (wTest.encodeClaim ldPast),
       wTest.b64encode (wTest.pssSign "SK" (wTest.encodeClaim ldPast)),
       wTest.pemOfPub "PK", "PK", wTest.encodeClaim ldPast,
       wTest.pssSign "SK" (wTest.encodeClaim ldPast),
       rfl, rfl, rfl, rfl, rfl, rfl, rfl, by decide, by decide⟩
      (by decide)).mpr ⟨by decide, 5, by decide, by decide⟩

/-- C6: once verification reaches the machine stage with an unexpired
    claim, (1) for a machine-bound claim whose embedded machine_id differs
    from the current fingerprint, the result is a machine-mismatch
    rejection whose user-facing details are the 16-character truncations
    of the two digests followed by an ellipsis - never the full digests,
    which are longer; (2) for a claim with machine_bound false the result
    is the success stage and is the same whatever the current machine
    fingerprint is, so no fingerprint comparison takes place. -/
theorem machine_binding_check (w : World) (a : RawArtifact) (ld : LicenseData)
    (ea : String) (hre : reachesExpiry w a ld) (hea : ld.expires_at = some ea)
    (hok : ea = "never" ∨ ∃ t, w.fromiso ea = some t ∧ ¬ w.now > t) :
    (∀ lm, ld.machine_bound = some true → ld.machine_id = some lm →
      w.currentMachineId ≠ lm →
      LicenseVerifier.verify w (FileRead.parsed a)
          = VerifyResult.rejected (Reason.machineMismatch (lm.take 16 ++ "...")
              (w.currentMachineId.take 16 ++ "...")) ∧
      (19 < lm.length → lm.take 16 ++ "..." ≠ lm) ∧
      (19 < w.currentMachineId.length →
        w.currentMachineId.take 16 ++ "..." ≠ w.currentMachineId)) ∧
    (ld.machine_bound = some false →
      LicenseVerifier.verify w (FileRead.parsed a)
          = LicenseVerifier.successStage ld ∧
      ∀ cm, LicenseVerifier.verify { w with currentMachineId := cm }
              (FileRead.parsed a)
          = LicenseVerifier.successStage ld) := by
  have hbase : LicenseVerifier.verify w (FileRead.parsed a)
      = LicenseVerifier.machineStage w.currentMachineId ld := by
    rw [verify_of_reaches w a ld hre, expiryStage_of_ok w ld ea hea hok]
  constructor
  · intro lm hmb hmid hne
    refine ⟨?_, fun h => truncation_ne_full lm h,
      fun h => truncation_ne_full w.currentMachineId h⟩
    rw [hbase]
    simp [LicenseVerifier.machineStage, hmb, hmid, hne]
  · intro hmb
    have hone : LicenseVerifier.machineStage w.currentMachineId ld
        = LicenseVerifier.successStage ld := by
      simp [LicenseVerifier.machineStage, hmb]
    refine ⟨by rw [hbase, hone], ?_⟩
    intro cm
    obtain ⟨l, s, pk, key, lb, sb, hl, hs, hp, hi, hk, hbl, hbs, hv, hd⟩ := hre
    have hre2 : reachesExpiry { w with currentMachineId := cm } a ld :=
      ⟨l, s, pk, key, lb, sb, hl, hs, hp, hi, hk, hbl, hbs, hv, hd⟩
    rw [verify_of_reaches _ a ld hre2,
      expiryStage_of_ok { w with currentMachineId := cm } ld ea hea hok]
    simp [LicenseVerifier.machineStage, hmb]

/-- C6 witness: a machine-bound artifact checked on a machine with a
    different fingerprint is rejected with truncated digests in the
    details. -/
theorem machine_binding_check_witness :
    LicenseVerifier.verify { wTest with currentMachineId := "QQBBBBBBBBBBBBBBBBBBBB" }
        (FileRead.parsed
          (LicenseGenerator.signedArtifactOf wTest "SK" "PK" ldBound).toRaw)
      = VerifyResult.rejected (Reason.machineMismatch
          ("FPAAAAAAAAAAAAAAAAAAAA".take 16 ++ "...")
          ("QQBBBBBBBBBBBBBBBBBBBB".take 16 ++ "...")) :=
  ((machine_binding_check { wTest with currentMachineId := "QQBBBBBBBBBBBBBBBBBBBB" }
      (LicenseGenerator.signedArtifactOf wTest "SK" "PK" ldBound).toRaw ldBound
      "never"
      ⟨wTest.b64encode (wTest.encodeClaim ldBound),
       wTest.b64encode (wTest.pssSign "SK" (wTest.encodeClaim ldBound)),
       wTest.pemOfPub "PK", "PK", wTest.encodeClaim ldBound,
       wTest.pssSign "SK" (wTest.encodeClaim ldBound),
       rfl, rfl, rfl, rfl, rfl, rfl, rfl, by decide, by decide⟩
      (by decide) (Or.inl rfl)).1 "FPAAAAAAAAAAAAAAAAAAAA" (by decide) (by decide)
      (by decide)).1

/-- C1: signing a claim built by create_license with a matching key pair
    and verifying the resulting artifact on the same unmodified machine
    (same fingerprint, clock not past the expiry) is accepted, and the
    returned details - license_id, product_id, client, issued_at,
    expires_at, machine_bound, features - equal the corresponding fields
    of the claim.  The hypotheses state the external library contracts:
    base64 and PEM round-trips, claim json round-trip, and PSS signature
    correctness at the signed message. -/
theorem verify_sign_roundtrip (w : World) (priv pub lid pid cl ia : String)
    (expires : Option String) (mb : Bool) (fs : Option Features) (fp si : String)
    (ld : LicenseData) (msg sg : String)
    (hld : ld = LicenseGenerator.create_license lid pid cl ia expires mb fs fp si)
    (hmsg : msg = w.encodeClaim ld)
    (hsg : sg = w.pssSign priv msg)
    (hpem : w.loadPubKey (w.pemOfPub pub) = some pub)
    (hb1 : w.b64decode (w.b64encode msg) = some msg)
    (hb2 : w.b64decode (w.b64encode sg) = some sg)
    (hver : w.pssVerify pub sg msg = true)
    (hdec : w.decodeClaim msg = some ld)
    (hexp : LicenseGenerator.expiresEff expires = "never" ∨
      ∃ t, w.fromiso (LicenseGenerator.expiresEff expires) = some t ∧ ¬ w.now > t)
    (hmach : mb = true → w.currentMachineId = fp) :
    LicenseVerifier.verify w (FileRead.parsed
        (LicenseGenerator.signedArtifactOf w priv pub ld).toRaw)
      = VerifyResult.accepted
          { license_id := lid, product_id := pid, client := cl, issued_at := ia,
            expires_at := LicenseGenerator.expiresEff expires,
            machine_bound := mb, features := fs.getD [] } := by
  subst hsg
  subst hmsg
  have hre : reachesExpiry w
      ((LicenseGenerator.signedArtifactOf w priv pub ld).toRaw) ld :=
    ⟨w.b64encode (w.encodeClaim ld),
     w.b64encode (w.pssSign priv (w.encodeClaim ld)),
     w.pemOfPub pub, pub, w.encodeClaim ld, w.pssSign priv (w.encodeClaim ld),
     rfl, rfl, rfl, rfl, hpem, hb1, hb2, hver, hdec⟩
  rw [verify_of_reaches _ _ _ hre]
  have hea : ld.expires_at = some (LicenseGenerator.expiresEff expires) := by
    rw [hld]
    rfl
  rw [expiryStage_of_ok w ld (LicenseGenerator.expiresEff expires) hea hexp]
  subst hld
  cases mb with
  | false =>
    simp [LicenseVerifier.machineStage, LicenseVerifier.successStage,
      LicenseGenerator.create_license]
  | true =>
    have hcm := hmach rfl
    simp [LicenseVerifier.machineStage, LicenseVerifier.successStage,
      LicenseGenerator.create_license, hcm]

/-- C1 witness: the machine-bound test claim signed with the test key pair
    verifies as accepted on the issuing machine with its own fields as the
    details. -/
theorem verify_sign_roundtrip_witness :
    LicenseVerifier.verify wTest (FileRead.parsed
        (LicenseGenerator.signedArtifactOf wTest "SK" "PK" ldBound).toRaw)
      = VerifyResult.accepted
          { license_id := "lid2", product_id := "prod", client := "acme",
            issued_at := "2024-01-01", expires_at := "never",
            machine_bound := true, features := [] } :=
  verify_sign_roundtrip wTest "SK" "PK" "lid2" "prod" "acme" "2024-01-01"
    none true none "FPAAAAAAAAAAAAAAAAAAAA" "sys" ldBound
    (wTest.encodeClaim ldBound) (wTest.pssSign "SK" (wTest.encodeClaim ldBound))
    rfl rfl rfl rfl rfl rfl (by decide) (by decide) (Or.inl rfl) (fun _ => rfl)

/-- C10: is_activated is a bare existence check on the activation file -
    any content, corrupted or empty, reports the machine as activated,
    and an absent file reports not activated - while a successful
    activate_license returns true and overwrites whatever record was
    there before with the fresh record for the verified license; the
    written record does not depend on the prior file content. -/
theorem activation_record_behavior (w : World) (input : FileRead)
    (d : AcceptedDetails)
    (hacc : LicenseVerifier.verify w input = VerifyResult.accepted d) :
    (∀ content, LicenseActivation.is_activated (some content) = true) ∧
    LicenseActivation.is_activated none = false ∧
    ∀ prior1 prior2 : Option String,
      (LicenseActivation.activate_license w input prior1).1 = true ∧
      (LicenseActivation.activate_license w input prior1).2
        = some (w.encodeRecord
            { activated_at := w.nowIso, machine_id := w.currentMachineId,
              system_info := w.systemInfo, license_id := d.license_id }) ∧
      (LicenseActivation.activate_license w input prior1).2
        = (LicenseActivation.activate_license w input prior2).2 := by
  refine ⟨fun _ => rfl, rfl, ?_⟩
  intro p1 p2
  refine ⟨?_, ?_, ?_⟩ <;>
    simp [LicenseActivation.activate_license, hacc]

/-- C10 witness: activating the verified free test license overwrites a
    garbage prior record with the fresh activation record. -/
theorem activation_record_behavior_witness :
    (LicenseActivation.activate_license wTest (FileRead.parsed
        (LicenseGenerator.signedArtifactOf wTest "SK" "PK" ldFree).toRaw)
        (some "garbage")).2
      = some (wTest.encodeRecord
          { activated_at := "2024-06-01", machine_id := "FPAAAAAAAAAAAAAAAAAAAA",
            system_info := "sys", license_id := "lid1" }) :=
  ((activation_record_behavior wTest
      (FileRead.parsed (LicenseGenerator.signedArtifactOf wTest "SK" "PK" ldFree).toRaw)
      { license_id := "lid1", product_id := "prod", client := "acme",
        issued_at := "2024-01-01", expires_at := "never",
        machine_bound := false, features := [] }
      (by decide)).2.2 (some "garbage") none).2.1
